import Mathlib

/-!
Verification of the conversation-orchestration core of the post-discharge
assistant repository: a shallow embedding in Lean 4 of

  * `src/rag/citation_generator.py` (citation assembly),
  * `src/agents/agent_tools.py` (patient-record lookup, similarity-index
    retrieval, web search),
  * `src/agents/receptionist_agent.py` (name identification),
  * `src/agents/clinical_agent.py` (retrieval-augmented answering),
  * `src/llm/groq_client.py` (retry policy), and
  * `src/orchestration/multi_agent_graph.py` (per-message state machine),

followed by theorems settling the spec's claims about them.  External
collaborators (SQLite, ChromaDB, Tavily, the Groq LLM) are modelled as
oracles: their outcomes are inputs (`Except`-valued environment fields),
while every decision the repository's own code makes on those outcomes is
translated faithfully.
-/

namespace PostDischarge

/-- `containsSub s pat` is Python's `pat in s` on strings. -/
def containsSub (s pat : String) : Bool :=
  decide (List.IsInfix pat.data s.data)

/-- Python's `str.lower()` (and SQL `LOWER`): ASCII case folding, applied
here to ASCII names and queries. -/
def lowerString (s : String) : String :=
  String.mk (s.data.map Char.toLower)

/-- Python's `str.strip()`: drop leading and trailing whitespace. -/
def trimString (s : String) : String :=
  String.mk (((s.data.dropWhile Char.isWhitespace).reverse.dropWhile Char.isWhitespace).reverse)

/-- Python's `enumerate(xs, i)`: pair every element with its index counting
from `i`. -/
def enumFrom (i : Nat) : List α → List (Nat × α)
  | [] => []
  | x :: xs => (i, x) :: enumFrom (i + 1) xs



/-! ## Citation assembly (`src/rag/citation_generator.py`) -/

/-- A retrieved chunk dict as consumed by `build_context_with_citations`:
the code reads keys `page`, `text`, `chunk_id` with `.get` defaults and
(upstream, in `retriever.py`) a `rank` key.  Optional fields model dict
keys that may be absent. -/
structure Chunk where
  rank : Option Nat
  page : Option String
  text : Option String
  chunk_id : Option String
deriving Repr, DecidableEq

/-- `chunk.get("page", "Unknown")`. -/
def Chunk.getPage (c : Chunk) : String := c.page.getD "Unknown"

/-- `chunk.get("text", "")`. -/
def Chunk.getText (c : Chunk) : String := c.text.getD ""

/-- `chunk.get("chunk_id", "N/A")`. -/
def Chunk.getChunkId (c : Chunk) : String := c.chunk_id.getD "N/A"

/-- One tracked citation entry `{source_num, page, chunk_id}`. -/
structure Citation where
  source_num : Nat
  page : String
  chunk_id : String
deriving Repr, DecidableEq

/-- One inline context block: `f"[Source {i}: Page {page}]\n{text}"`. -/
def contextBlock (i : Nat) (c : Chunk) : String :=
  "[Source " ++ toString i ++ ": Page " ++ c.getPage ++ "]\n" ++ c.getText

/-- The list of blocks built by the `for i, chunk in enumerate(chunks, 1)`
loop. -/
def blocksOf (chunks : List Chunk) : List String :=
  (enumFrom 1 chunks).map fun p => contextBlock p.1 p.2

/-- The `citations` list built by the same loop. -/
def citationsOf (chunks : List Chunk) : List Citation :=
  (enumFrom 1 chunks).map fun p =>
    { source_num := p.1, page := p.2.getPage, chunk_id := p.2.getChunkId }

/-- `build_context_with_citations(chunks)`: joins the blocks with
`"\n\n---\n\n"` and renders the citation list one per line. -/
def build_context_with_citations (chunks : List Chunk) : String × String :=
  let context := String.intercalate "\n\n---\n\n" (blocksOf chunks)
  let citation_text := String.intercalate "\n"
    ((citationsOf chunks).map fun c =>
      "Source " ++ toString c.source_num ++ ": Page " ++ c.page)
  (context, citation_text)


/-- Concrete two-passage input used to exercise `citation_assembly_spec`. -/
def demoChunksC6 : List Chunk :=
  [{ rank := some 1, page := some "12", text := some "alpha", chunk_id := some "c1" },
   { rank := some 2, page := some "34", text := some "beta", chunk_id := some "c2" }]


/-! ## Patient record store (`src/agents/agent_tools.py`, `PatientDatabaseTool`) -/

/-- The parsed `lab_values` JSON dict, with the keys the agents read
(`creatinine`, `egfr`, `hemoglobin`); values are kept as rendered text. -/
structure LabValues where
  creatinine : String
  egfr : String
  hemoglobin : String
deriving Repr, DecidableEq

/-- Opaque payloads of the four JSON-encoded columns of a `patients` row,
each carried together with its `json.loads` outcome (a parse either yields
the value or raises; a payload missing the keys later read is folded into
the failure case). -/
structure JsonFields where
  secondary_diagnoses : Except String (List String)
  medications : Except String (List String)
  lab_values : Except String LabValues
  emergency_contact : Except String (List (String × String))

/-- One raw row of the `patients` table before JSON-field parsing. -/
structure RawRow where
  patient_name : String
  discharge_date : String
  primary_diagnosis : String
  dietary_restrictions : String
  follow_up : String
  warning_signs : String
  json : JsonFields

/-- A patient record after `get_patient_by_name` parsed the JSON columns. -/
structure Patient where
  patient_name : String
  discharge_date : String
  primary_diagnosis : String
  dietary_restrictions : String
  follow_up : String
  warning_signs : String
  secondary_diagnoses : List String
  medications : List String
  lab_values : LabValues
  emergency_contact : List (String × String)
deriving Repr, DecidableEq

/-- Oracle outcomes of the SQLite collaborator: whether connecting and
querying succeeds, and the table contents it would serve. -/
structure DbEnv where
  connect : Except String Unit
  rows : List RawRow

/-- Parse the four JSON columns of a found row (the `json.loads` lines);
the first failing parse raises. -/
def parseRow (r : RawRow) : Except String Patient :=
  match r.json.secondary_diagnoses with
  | .error e => .error e
  | .ok sd =>
    match r.json.medications with
    | .error e => .error e
    | .ok meds =>
      match r.json.lab_values with
      | .error e => .error e
      | .ok labs =>
        match r.json.emergency_contact with
        | .error e => .error e
        | .ok ec => .ok
            { patient_name := r.patient_name,
              discharge_date := r.discharge_date,
              primary_diagnosis := r.primary_diagnosis,
              dietary_restrictions := r.dietary_restrictions,
              follow_up := r.follow_up,
              warning_signs := r.warning_signs,
              secondary_diagnoses := sd,
              medications := meds,
              lab_values := labs,
              emergency_contact := ec }

/-- The body of `get_patient_by_name` as it runs inside the `try:` block:
connect, run the `LOWER(patient_name) = LOWER(?)` query (first matching row),
and parse the four JSON columns; any step may raise. -/
def lookupBody (env : DbEnv) (q : String) : Except String (Option Patient) :=
  match env.connect with
  | .error e => .error e
  | .ok _ =>
    match env.rows.find? (fun r => lowerString r.patient_name == lowerString q) with
    | none => .ok none
    | some r =>
      match parseRow r with
      | .error e => .error e
      | .ok p => .ok (some p)

/-- `get_patient_by_name`: the body wrapped in the catch-all
`except Exception: return None`. -/
def get_patient_by_name (env : DbEnv) (q : String) : Option Patient :=
  match lookupBody env q with
  | .ok v => v
  | .error _ => none

/-- The body of `get_all_patient_names` (`SELECT patient_name FROM patients
ORDER BY patient_name`). -/
def namesBody (env : DbEnv) : Except String (List String) :=
  match env.connect with
  | .error e => .error e
  | .ok _ => .ok (List.insertionSort (· ≤ ·) (env.rows.map (·.patient_name)))

/-- `get_all_patient_names`, with its catch-all returning `[]`. -/
def get_all_patient_names (env : DbEnv) : List String :=
  match namesBody env with
  | .ok ns => ns
  | .error _ => []


/-- A store environment whose connection fails, for the C10 witness. -/
def envC10 : DbEnv := { connect := .error "unable to open database file", rows := [] }


/-! ## Receptionist agent (`src/agents/receptionist_agent.py`) -/

/-- `MEDICAL_DISCLAIMER` from `config/settings.py`. -/
def MEDICAL_DISCLAIMER : String :=
  "\n⚠️ **IMPORTANT MEDICAL DISCLAIMER**\n\nThis is an AI assistant for educational purposes only. The information provided \nshould NOT be used as a substitute for professional medical advice, diagnosis, \nor treatment. \n\n**Always consult with qualified healthcare professionals for medical advice.**\n\nThis system uses AI technology which may produce errors or inaccuracies. \nAll medical decisions should be made in consultation with your doctor.\n"

/-- `greet_patient`: the fixed greeting bundle shown at session start. -/
def greet_patient : String :=
  "Hello! Welcome to the Post-Discharge Care Assistant. 🏥\n\n" ++ MEDICAL_DISCLAIMER
    ++ "\n\nI\u0027m here to help you with any questions about your recovery and discharge instructions.\n\n**To get started, could you please tell me your full name?**\n\n(Example: John Smith)"

/-- The receptionist collaborators: the record store plus the LLM call made by
`_generate_patient_greeting` (modelled as an oracle outcome). -/
structure ReceptionistEnv where
  db : DbEnv
  greetingLLM : Except String String

/-- Status field of the dict returned by `process_patient_name`. -/
inductive RStatus
  | success
  | invalid_name
  | not_found
deriving Repr, DecidableEq

/-- The dict returned by `process_patient_name`. -/
structure NameOutcome where
  status : RStatus
  response : String
  patient_data : Option Patient
deriving Repr, DecidableEq

/-- The `similar_names` list comprehension of `process_patient_name`:
`[n for n in all_names if name.lower() in n.lower() or n.lower() in name.lower()]`. -/
def similar_names (allNames : List String) (name : String) : List String :=
  allNames.filter fun n =>
    containsSub (lowerString n) (lowerString name) || containsSub (lowerString name) (lowerString n)

/-- The `suggestion` string of the not-found branch: the first 3 similar
names, or a re-spell prompt when there are none. -/
def suggestion_text (allNames : List String) (name : String) : String :=
  let sims := similar_names allNames name
  if sims.isEmpty then
    "\n\nPlease check your name spelling and try again."
  else
    "\n\nDid you mean one of these?\n"
      ++ String.intercalate "\n" ((sims.take 3).map fun n => "- " ++ n)

/-- The template greeting used when the LLM call of
`_generate_patient_greeting` raises. -/
def fallback_greeting (patientName : String) (p : Patient) : String :=
  "Hi " ++ patientName ++ "! 👋\n\nI found your discharge report from "
    ++ p.discharge_date ++ " for " ++ p.primary_diagnosis
    ++ ". \n\nHow are you feeling today? Are you following your medication schedule?\n\nI\u0027m here to help with any questions about your recovery or discharge instructions."

/-- `_generate_patient_greeting`: LLM text, or the template on failure. -/
def generate_patient_greeting (env : ReceptionistEnv) (patientName : String)
    (p : Patient) : String :=
  match env.greetingLLM with
  | .ok g => g
  | .error _ => fallback_greeting patientName p

/-- `process_patient_name(name)`: trim, reject names shorter than 3
characters, look the trimmed name up case-insensitively, and answer with a
success bundle (storing the record) or a not-found bundle suggesting up to 3
similar names. -/
def process_patient_name (env : ReceptionistEnv) (rawName : String) : NameOutcome :=
  let name := trimString rawName
  if name.length < 3 then
    { status := .invalid_name,
      response := "I didn\u0027t quite catch that. Could you please provide your full name? (First and Last name)",
      patient_data := none }
  else
    match get_patient_by_name env.db name with
    | none =>
      let allNames := get_all_patient_names env.db
      { status := .not_found,
        response := "I couldn\u0027t find a discharge report for \u0027" ++ name
          ++ "\u0027 in our system." ++ suggestion_text allNames name,
        patient_data := none }
    | some p =>
      { status := .success,
        response := generate_patient_greeting env name p,
        patient_data := some p }


/-- `_get_patient_context`: the compact textual rendering of the stored
record handed to the clinical side. -/
def get_patient_context (patient_name : Option String) (patient_data : Option Patient) :
    String :=
  match patient_data with
  | none => ""
  | some p =>
    "Patient Context:\n- Name: " ++ patient_name.getD ""
      ++ "\n- Primary Diagnosis: " ++ p.primary_diagnosis
      ++ "\n- Secondary Diagnoses: " ++ String.intercalate ", " p.secondary_diagnoses
      ++ "\n- Current Medications: " ++ String.intercalate ", " p.medications
      ++ "\n- Lab Values: Creatinine " ++ p.lab_values.creatinine
      ++ ", eGFR " ++ p.lab_values.egfr
      ++ "\n- Discharge Date: " ++ p.discharge_date
      ++ "\n- Warning Signs to Watch: " ++ p.warning_signs ++ "\n"

/-! ## Similarity-index retrieval (`src/agents/agent_tools.py`, `RAGRetrieverTool`) -/

/-- One raw hit (document text plus metadata) served by the similarity
index for a query. -/
structure RawHit where
  content : String
  page : String
  chunk : String
  source : String
deriving Repr, DecidableEq

/-- One formatted retrieved document of `retrieve_context`. -/
structure RagDoc where
  rank : Nat
  content : String
  page : String
  chunk : String
  source : String
deriving Repr, DecidableEq

/-- The dict returned by `retrieve_context`; the error branch carries an
`error` key and empty results. -/
structure RagResult where
  context : String
  documents : List RagDoc
  query : String
  num_results : Nat
  error : Option String
deriving Repr, DecidableEq

/-- Oracle outcome of the embedding model plus ChromaDB query for a given
query string. -/
structure RagEnv where
  search : String → Except String (List RawHit)

/-- `RAGRetrieverTool.retrieve_context`: rank the hits 1-based in provider
order, join them into a context string, and on any internal exception
return the empty result dict carrying the error. -/
def retrieve_context (env : RagEnv) (query : String) : RagResult :=
  match env.search query with
  | .error e =>
    { context := "", documents := [], query := query, num_results := 0, error := some e }
  | .ok hits =>
    let docs : List RagDoc := (enumFrom 1 hits).map fun p =>
      { rank := p.1, content := p.2.content, page := p.2.page,
        chunk := p.2.chunk, source := p.2.source }
    let ctx := String.intercalate "\n\n"
      (docs.map fun d => "[Source: Page " ++ d.page ++ "]\n" ++ d.content)
    { context := ctx, documents := docs, query := query,
      num_results := docs.length, error := none }

/-- `RAGRetrieverTool.get_citations`. -/
def get_citations (documents : List RagDoc) : String :=
  String.intercalate "\n"
    (documents.map fun d => "- " ++ d.source ++ ", Page " ++ d.page ++ ", Chunk " ++ d.chunk)

/-! ## Web search (`src/agents/agent_tools.py`, `WebSearchTool`) -/

/-- One formatted web result. -/
structure WebHit where
  title : String
  url : String
  content : String
  score : String
deriving Repr, DecidableEq

/-- The dict returned by `WebSearchTool.search`; `num_results` is only
present on the success branch. -/
structure WebResp where
  results : List WebHit
  query : String
  num_results : Option Nat
  error : Option String
deriving Repr, DecidableEq

/-- The web-search collaborator: whether a Tavily client is configured, and
the oracle outcome of a search call. -/
structure WebEnv where
  hasClient : Bool
  search : String → Except String (List WebHit)

/-- `WebSearchTool.search`: disabled without a client; on a provider
exception return the empty-result dict carrying the error. -/
def web_search (env : WebEnv) (query : String) : WebResp :=
  if env.hasClient = false then
    { results := [], query := query, num_results := none,
      error := some "Web search not available. Check TAVILY_API_KEY." }
  else
    match env.search query with
    | .ok rs =>
      { results := rs, query := query, num_results := some rs.length, error := none }
    | .error e =>
      { results := [], query := query, num_results := none, error := some e }

/-- `WebSearchTool.format_search_results`. -/
def format_search_results (w : WebResp) : String :=
  if w.results.isEmpty then "No web search results found."
  else
    "Web search results for: " ++ w.query ++ "\n\n"
      ++ String.join ((enumFrom 1 w.results).map fun p =>
          toString p.1 ++ ". " ++ p.2.title ++ "\n   Source: " ++ p.2.url ++ "\n   "
            ++ p.2.content.take 200 ++ "...\n\n")

/-! ## Clinical agent (`src/agents/clinical_agent.py`) -/

/-- The recency lexicon shared by `_clinical_node` (and the web-search
decision): `["latest", "recent", "new", "current", "2024", "2025"]`. -/
def recency_keywords : List String :=
  ["latest", "recent", "new", "current", "2024", "2025"]

/-- `any(keyword in query.lower() for keyword in ...)`. -/
def uses_web_keywords (query : String) : Bool :=
  recency_keywords.any fun k => containsSub (lowerString query) k

/-- The fixed instruction block appended to every clinical prompt. -/
def clinical_instructions : String :=
  "\nPlease provide a detailed, medically accurate answer:\n1. Address the patient's question directly\n2. Use information from the provided medical context\n3. Include citations [Source: Page X] for medical facts\n4. Provide actionable guidance when appropriate\n5. Remind patient to consult their healthcare provider\n\nKeep the answer clear, professional, and patient-friendly."

/-- `_generate_clinical_answer`'s prompt assembly (`prompt_parts` joined by
newlines); empty patient context is falsy and skipped, as are empty web
results. -/
def build_clinical_prompt (patient_context : Option String) (rag : RagResult)
    (web : Option WebResp) (query : String) : String :=
  let parts : List String :=
    (match patient_context with
     | some pc => if pc == "" then [] else ["PATIENT INFORMATION:\n" ++ pc ++ "\n"]
     | none => [])
    ++ (if 0 < rag.num_results then
          ["MEDICAL REFERENCE CONTEXT:\n" ++ rag.context ++ "\n"] else [])
    ++ (match web with
        | some w =>
          if w.results.isEmpty then []
          else ["RECENT MEDICAL LITERATURE:\n" ++ format_search_results w ++ "\n"]
        | none => [])
    ++ ["PATIENT QUESTION:\n" ++ query ++ "\n"]
    ++ [clinical_instructions]
  String.intercalate "\n" parts

/-- The clinical collaborators: similarity index, web search, and the
text-generation call keyed by the full prompt. -/
structure ClinicalEnv where
  rag : RagEnv
  web : WebEnv
  llm : String → Except String String

/-- The templated answer of `_generate_clinical_answer`'s `except` branch. -/
def errorAnswerText : String :=
  "I apologize, but I encountered an error processing your question. Please consult your healthcare provider directly for medical advice.\n\n"
    ++ MEDICAL_DISCLAIMER

/-- `_generate_clinical_answer`: generated text plus disclaimer, or the
templated error answer when the generation call raises. -/
def generate_clinical_answer (env : ClinicalEnv) (patient_context : Option String)
    (query : String) (rag : RagResult) (web : Option WebResp) : String :=
  match env.llm (build_clinical_prompt patient_context rag web query) with
  | .ok a => a ++ "\n\n" ++ MEDICAL_DISCLAIMER
  | .error _ => errorAnswerText

/-- The dict returned by `answer_medical_query`. -/
structure ClinicalResponse where
  answer : String
  rag_sources : List RagDoc
  web_sources : List WebHit
  used_rag : Bool
  used_web : Bool
  query : String
deriving Repr, DecidableEq

/-- `answer_medical_query(query, use_web_search)`: retrieve, decide
`need_web_search = use_web_search or not has_relevant_context`, search the
web only when needed and a client exists, then generate the answer. -/
def answer_medical_query (env : ClinicalEnv) (patient_context : Option String)
    (query : String) (use_web_search : Bool) : ClinicalResponse :=
  let rag_results := retrieve_context env.rag query
  let has_relevant_context : Bool := decide (0 < rag_results.num_results)
  let need_web_search : Bool := use_web_search || !has_relevant_context
  let web_results : Option WebResp :=
    if need_web_search && env.web.hasClient then
      some (web_search env.web ("nephrology " ++ query))
    else none
  let answer := generate_clinical_answer env patient_context query rag_results web_results
  { answer := answer,
    rag_sources := rag_results.documents,
    web_sources := match web_results with | some w => w.results | none => [],
    used_rag := has_relevant_context,
    used_web := match web_results with
                | some w => decide (0 < w.results.length)
                | none => false,
    query := query }

/-- The 70-character separator line `"="*70`. -/
def sep70 : String :=
  String.mk (List.replicate 70 '=')

/-- `format_response_with_sources`. -/
def format_response_with_sources (resp : ClinicalResponse) : String :=
  let withRag :=
    if resp.rag_sources.isEmpty then resp.answer
    else resp.answer ++ "\n\n" ++ sep70 ++ "\n📚 **SOURCES FROM MEDICAL TEXTBOOK:**\n"
      ++ get_citations resp.rag_sources
  if resp.web_sources.isEmpty then withRag
  else withRag ++ "\n\n" ++ sep70 ++ "\n🌐 **ADDITIONAL WEB SOURCES:**\n"
    ++ String.join (resp.web_sources.map fun s => "- " ++ s.title ++ "\n  " ++ s.url ++ "\n")

/-- Modelled from the spec: the AnswerBundle `method` taxonomy of §3/§4.3.
The orchestration layer that assigns `response["method"]` (consumed by
`src/src/api/main.py`) is not present under `src/`. -/
inductive AnswerMethod
  | rag
  | web_search
  | no_context
  | no_web_results
  | error
deriving Repr, DecidableEq

/-- Modelled from the spec: assigns the §4.3 method to a clinical answer.
The attempt condition mirrors `answer_medical_query`'s
`need_web_search and self.web_search_tool.client`; for an attempted search,
§4.3 step 3 distinguishes a failing provider call (→ `error`, observable
here as `WebResp.error`) from a provider that returns nothing useful
(→ `no_web_results`) and from at least one result (→ `web_search`);
without an attempt the outcome is `no_context` when no passages were
retrieved, else `rag`. -/
def answer_method (env : ClinicalEnv) (patient_context : Option String)
    (query : String) (use_web_search : Bool) : AnswerMethod :=
  let r := answer_medical_query env patient_context query use_web_search
  let attempted := (use_web_search || r.rag_sources.isEmpty) && env.web.hasClient
  if attempted then
    let w := web_search env.web ("nephrology " ++ query)
    if w.error.isSome then .error
    else if w.results.isEmpty then .no_web_results
    else .web_search
  else if r.rag_sources.isEmpty then .no_context
  else .rag

/-! ## Text-generation retry policy (`src/llm/groq_client.py`) -/

/-- `chat_completion` under `@retry(stop=stop_after_attempt(3), ...)`:
tenacity re-invokes the call until an attempt succeeds or three attempts
have been made; `attempt n` is the oracle outcome of the n-th provider
call (the exponential backoff between attempts is real-time behaviour
outside the embedding). -/
def chat_completion_with_retry (attempt : Nat → Except String String) :
    Except String String :=
  match attempt 1 with
  | .ok r => .ok r
  | .error _ =>
    match attempt 2 with
    | .ok r => .ok r
    | .error _ => attempt 3

/-- How many provider calls `chat_completion` makes for the given oracle. -/
def attempts_used (attempt : Nat → Except String String) : Nat :=
  match attempt 1 with
  | .ok _ => 1
  | .error _ =>
    match attempt 2 with
    | .ok _ => 2
    | .error _ => 3

/-! ## Orchestrator (`src/orchestration/multi_agent_graph.py`) -/

/-- One `conversation_history` entry (`agent`/`role` key plus `message`;
timestamps and the clinical source counts are metadata outside the
embedding). -/
structure HistEntry where
  speaker : String
  message : String
deriving Repr, DecidableEq

/-- `ConversationState` (timestamps omitted). -/
structure ConvState where
  user_message : String
  patient_name : Option String
  patient_identified : Bool
  current_agent : String
  conversation_history : List HistEntry
  receptionist_response : Option String
  clinical_response : Option String
  patient_context : Option String
  route_to_clinical : Bool
  conversation_complete : Bool
  turn_count : Nat
deriving Repr, DecidableEq

/-- The dict returned by `ReceptionistAgent.chat` (its two internal LLM
calls are caught inside the agent, so the call is total; it is an oracle
because its outcome is LLM-driven). -/
structure ChatOutcome where
  response : String
  route_to_clinical : Bool
  patient_context : String
deriving Repr, DecidableEq

/-- Everything `process_message` interacts with: the receptionist's record
store and greeting LLM, the chat oracle, the clinical collaborators, the
clinical agent's pre-existing `patient_context` (its mutable state), and an
optional fault raised inside `app.invoke` (the graph machinery), which the
orchestrator boundary must catch. -/
structure OrchEnv where
  recept : ReceptionistEnv
  chatResult : String → ChatOutcome
  clinical : ClinicalEnv
  clinicalCtx0 : Option String
  invoke_fault : Option String

/-- `_receptionist_node`: identification when the patient is not yet
identified (storing name, record rendering and response on success),
otherwise chat with routing; always appends the response to the history and
increments `turn_count` once. -/
def receptionist_node (env : OrchEnv) (s : ConvState) : ConvState :=
  if s.patient_identified = false then
    let r := process_patient_name env.recept s.user_message
    let s1 :=
      if r.status = RStatus.success then
        { s with patient_identified := true,
                 patient_name := some (trimString s.user_message),
                 patient_context :=
                   some (get_patient_context (some (trimString s.user_message)) r.patient_data),
                 receptionist_response := some r.response }
      else { s with receptionist_response := some r.response }
    { s1 with
      conversation_history :=
        s1.conversation_history ++ [{ speaker := "receptionist", message := r.response }],
      turn_count := s1.turn_count + 1 }
  else
    let c := env.chatResult s.user_message
    let s1 := { s with receptionist_response := some c.response,
                       route_to_clinical := c.route_to_clinical }
    let s2 :=
      if s1.route_to_clinical then { s1 with patient_context := some c.patient_context }
      else s1
    { s2 with
      conversation_history :=
        s2.conversation_history ++ [{ speaker := "receptionist", message := c.response }],
      turn_count := s2.turn_count + 1 }

/-- `_clinical_node`: set the agent's patient context when the state carries
a truthy one, compute the recency flag, answer, format, append to history,
increment `turn_count` once and clear the routing flag. -/
def clinical_node (env : OrchEnv) (s : ConvState) : ConvState :=
  let eff_ctx : Option String :=
    match s.patient_context with
    | some pc => if pc == "" then env.clinicalCtx0 else some pc
    | none => env.clinicalCtx0
  let use_web := uses_web_keywords s.user_message
  let response := answer_medical_query env.clinical eff_ctx s.user_message use_web
  let formatted := format_response_with_sources response
  { s with clinical_response := some formatted,
           conversation_history :=
             s.conversation_history ++ [{ speaker := "clinical", message := formatted }],
           turn_count := s.turn_count + 1,
           route_to_clinical := false }

/-- `_end_node`. -/
def end_node (s : ConvState) : ConvState := { s with conversation_complete := true }

/-- `_route_after_receptionist`. -/
def route_after_receptionist (s : ConvState) : String :=
  if s.route_to_clinical then "clinical" else "end"

/-- One `app.invoke` pass over the compiled graph: receptionist, then
(conditionally) clinical, then end.  `_route_after_clinical` always returns
`"end"`, so no further node runs. -/
def run_graph (env : OrchEnv) (s : ConvState) : ConvState :=
  let s1 := receptionist_node env s
  if s1.route_to_clinical then end_node (clinical_node env s1) else end_node s1

/-- The state mutations `process_message` performs before `try: app.invoke`:
store the message, append the user turn, reset the routing flags. -/
def prep_state (user_message : String) (s : ConvState) : ConvState :=
  { s with user_message := user_message,
           conversation_history :=
             s.conversation_history ++ [{ speaker := "user", message := user_message }],
           route_to_clinical := false,
           conversation_complete := false }

/-- The guarded `app.invoke` call: either the graph result or the injected
fault. -/
def invoke_result (env : OrchEnv) (s0 : ConvState) : Except String ConvState :=
  match env.invoke_fault with
  | some e => .error e
  | none => .ok (run_graph env s0)

/-- The fallback text of `process_message`'s `except` branch. -/
def apology_text : String :=
  "I apologize for the confusion. Could you please rephrase your question?"

/-- Python truthiness of an optional string. -/
def truthy (o : Option String) : Bool :=
  match o with
  | some t => !(t == "")
  | none => false

/-- `result.get("clinical_response") or result.get("receptionist_response")`. -/
def pick_response (s : ConvState) : Option String :=
  match s.clinical_response with
  | some c => if c == "" then s.receptionist_response else some c
  | none => s.receptionist_response

/-- The dict returned by `process_message`. -/
structure ProcResult where
  response : Option String
  state : ConvState
  agent : String
deriving Repr, DecidableEq

/-- `process_message(user_message, state)`: mutate the state, run the graph
under the catch-all (on a fault the mutated state is kept and the apology
stored), and select response and agent tag by truthiness of
`clinical_response`. -/
def process_message (env : OrchEnv) (user_message : String) (s : ConvState) :
    ProcResult :=
  let s0 := prep_state user_message s
  let result :=
    match invoke_result env s0 with
    | .ok r => r
    | .error _ => { s0 with receptionist_response := some apology_text }
  { response := pick_response result,
    state := result,
    agent := if truthy result.clinical_response then "clinical" else "receptionist" }

/-- The fresh state built by `start_conversation`. -/
def initial_state : ConvState :=
  { user_message := "", patient_name := none, patient_identified := false,
    current_agent := "receptionist", conversation_history := [],
    receptionist_response := none, clinical_response := none,
    patient_context := none, route_to_clinical := false,
    conversation_complete := false, turn_count := 0 }

/-- The dict returned by `start_conversation`. -/
structure StartResult where
  response : String
  state : ConvState
deriving Repr, DecidableEq

/-- `start_conversation`: the fixed greeting plus the fresh state with the
greeting recorded. -/
def start_conversation : StartResult :=
  { response := greet_patient,
    state := { initial_state with
               receptionist_response := some greet_patient,
               conversation_history := [{ speaker := "receptionist", message := greet_patient }] } }

/-- Folding `process_message` over a message sequence (one session run). -/
def run_messages (env : OrchEnv) (msgs : List String) (s : ConvState) : ConvState :=
  msgs.foldl (fun st m => (process_message env m st).state) s

/-! ## Concrete environments and inputs used by witnesses and counterexamples -/

/-- A benign environment: empty record store, chat that answers without
routing, no web client, healthy generation, no invoke fault. -/
def demoOrchEnv : OrchEnv :=
  { recept := { db := { connect := .ok (), rows := [] }, greetingLLM := .error "offline" },
    chatResult := fun _ =>
      { response := "Glad to hear it.", route_to_clinical := false, patient_context := "" },
    clinical := { rag := { search := fun _ => .ok [] },
                  web := { hasClient := false, search := fun _ => .error "no client" },
                  llm := fun _ => .ok "ok" },
    clinicalCtx0 := none,
    invoke_fault := none }

/-- A mid-session state: patient already identified, five turns in. -/
def identifiedState : ConvState :=
  { initial_state with patient_identified := true, turn_count := 5 }

/-- Like `demoOrchEnv` but the chat decision routes to the clinical agent. -/
def envC3 : OrchEnv :=
  { demoOrchEnv with
    chatResult := fun _ =>
      { response := "Connecting you to the clinical team.",
        route_to_clinical := true, patient_context := "ctx" } }

/-- A concrete record-store row for patient Adam King. -/
def adamRow : RawRow :=
  { patient_name := "Adam King", discharge_date := "2024-10-15",
    primary_diagnosis := "Chronic Kidney Disease Stage 3",
    dietary_restrictions := "Low sodium", follow_up := "Nephrology in 2 weeks",
    warning_signs := "Swelling, shortness of breath",
    json := { secondary_diagnoses := .ok ["Hypertension"],
              medications := .ok ["Lisinopril 10mg daily"],
              lab_values := .ok { creatinine := "2.1", egfr := "45", hemoglobin := "11.2" },
              emergency_contact := .ok [("name", "Mary King")] } }

/-- Like `demoOrchEnv`, but the record store knows Adam King and the greeting
LLM answers with a recognisable marker text. -/
def envC1 : OrchEnv :=
  { demoOrchEnv with
    recept := { db := { connect := .ok (), rows := [adamRow] },
                greetingLLM := .ok "WELCOME_BACK" } }

/-- Like `demoOrchEnv`, but the graph invocation raises. -/
def envFault : OrchEnv := { demoOrchEnv with invoke_fault := some "GraphRecursionError" }

/-- A receptionist environment whose store knows only Adam King. -/
def envC8 : ReceptionistEnv :=
  { db := { connect := .ok (), rows := [adamRow] }, greetingLLM := .error "offline" }

/-- A concrete similarity-index hit. -/
def ragHitC4 : RawHit :=
  { content := "CKD guidance", page := "12", chunk := "0", source := "nephrology-book" }

/-- A concrete web result. -/
def webHitC4 : WebHit :=
  { title := "New trial results", url := "https://example.org/a",
    content := "c", score := "0.9" }

/-- A clinical environment with a configured web client, a non-empty
similarity index and a healthy generator. -/
def envC4 : ClinicalEnv :=
  { rag := { search := fun _ => .ok [ragHitC4] },
    web := { hasClient := true, search := fun _ => .ok [webHitC4] },
    llm := fun _ => .ok "Generated answer." }

/-- A clinical environment with an empty index and no web client. -/
def envC5 : ClinicalEnv :=
  { rag := { search := fun _ => .ok [] },
    web := { hasClient := false, search := fun _ => .error "disabled" },
    llm := fun _ => .ok "Generated answer." }

/-- A clinical environment with an empty index and a configured web client
whose provider call fails. -/
def envC5err : ClinicalEnv :=
  { rag := { search := fun _ => .ok [] },
    web := { hasClient := true, search := fun _ => .error "tavily down" },
    llm := fun _ => .ok "Generated answer." }

/-- A provider that fails transiently on the first two attempts and
succeeds on the third. -/
def attemptsC9 : Nat → Except String String :=
  fun n => if n ≤ 2 then .error "rate limited" else .ok "generated text"

/-- A provider that succeeds immediately. -/
def attemptsC9w : Nat → Except String String := fun _ => .ok "fine"

/-- A similarity index whose backing store is down. -/
def ragEnvC9w : RagEnv := { search := fun _ => .error "chroma down" }

/-- A configured web client whose provider call fails. -/
def webEnvC9w : WebEnv := { hasClient := true, search := fun _ => .error "tavily down" }

/-! ## Helper lemmas -/

theorem enumFrom_length (i : Nat) (l : List α) :
    (enumFrom i l).length = l.length := by
  induction l generalizing i with
  | nil => rfl
  | cons x xs ih => simp [enumFrom, ih]

theorem enumFrom_getElem? (i : Nat) (l : List α) (j : Nat) (hj : j < l.length) :
    (enumFrom i l)[j]? = some (i + j, l.get ⟨j, hj⟩) := by
  induction l generalizing i j with
  | nil => simp at hj
  | cons x xs ih =>
    cases j with
    | zero => simp [enumFrom]
    | succ k =>
      have hk : k < xs.length := by simpa using hj
      have := ih (i + 1) k hk
      simpa [enumFrom, Nat.add_assoc, Nat.add_comm 1 k] using this

theorem parseRow_patient_name (r : RawRow) (p : Patient) (hp : parseRow r = .ok p) :
    p.patient_name = r.patient_name := by
  unfold parseRow at hp
  cases hsd : r.json.secondary_diagnoses with
  | error e => simp [hsd] at hp
  | ok sd =>
    cases hmeds : r.json.medications with
    | error e => simp [hsd, hmeds] at hp
    | ok meds =>
      cases hlabs : r.json.lab_values with
      | error e => simp [hsd, hmeds, hlabs] at hp
      | ok labs =>
        cases hec : r.json.emergency_contact with
        | error e => simp [hsd, hmeds, hlabs, hec] at hp
        | ok ec =>
          simp [hsd, hmeds, hlabs, hec] at hp
          simp [← hp]

theorem get_patient_by_name_some_find (env : DbEnv) (q : String) (p : Patient)
    (hp : get_patient_by_name env q = some p) :
    ∃ r, env.rows.find? (fun r => lowerString r.patient_name == lowerString q) = some r
      ∧ p.patient_name = r.patient_name := by
  cases hc : env.connect with
  | error e => simp [get_patient_by_name, lookupBody, hc] at hp
  | ok u =>
    cases hfind : env.rows.find? (fun r => lowerString r.patient_name == lowerString q) with
    | none => simp [get_patient_by_name, lookupBody, hc, hfind] at hp
    | some r =>
      refine ⟨r, rfl, ?_⟩
      cases hpr : parseRow r with
      | error e => simp [get_patient_by_name, lookupBody, hc, hfind, hpr] at hp
      | ok p0 =>
        have : p0 = p := by
          simpa [get_patient_by_name, lookupBody, hc, hfind, hpr] using hp
        exact this ▸ parseRow_patient_name r p0 hpr

theorem receptionist_node_turn (env : OrchEnv) (s : ConvState) :
    (receptionist_node env s).turn_count = s.turn_count + 1 := by
  unfold receptionist_node
  split <;> dsimp only <;> split <;> rfl

theorem clinical_node_turn (env : OrchEnv) (s : ConvState) :
    (clinical_node env s).turn_count = s.turn_count + 1 := rfl

theorem clinical_node_identified (env : OrchEnv) (s : ConvState) :
    (clinical_node env s).patient_identified = s.patient_identified := rfl

theorem end_node_identified (s : ConvState) :
    (end_node s).patient_identified = s.patient_identified := rfl

theorem end_node_turn (s : ConvState) :
    (end_node s).turn_count = s.turn_count := rfl

theorem end_node_fields_clinical (s : ConvState) :
    (end_node s).clinical_response = s.clinical_response := rfl

theorem receptionist_node_identified_true (env : OrchEnv) (s : ConvState)
    (h : s.patient_identified = true) :
    (receptionist_node env s).patient_identified = true := by
  unfold receptionist_node
  rw [h]
  simp only [Bool.true_eq_false, if_false]
  split <;> simp [h]

theorem receptionist_node_not_success (env : OrchEnv) (s : ConvState)
    (h : s.patient_identified = false)
    (h2 : (process_patient_name env.recept s.user_message).status ≠ RStatus.success) :
    (receptionist_node env s).patient_identified = false := by
  unfold receptionist_node
  rw [h]
  simp [h2, h]

theorem run_graph_identified_true (env : OrchEnv) (s : ConvState)
    (h : s.patient_identified = true) :
    (run_graph env s).patient_identified = true := by
  unfold run_graph
  dsimp only
  split
  · rw [end_node_identified, clinical_node_identified]
    exact receptionist_node_identified_true env s h
  · rw [end_node_identified]
    exact receptionist_node_identified_true env s h

theorem run_graph_turn_route_false (env : OrchEnv) (s : ConvState)
    (h : (receptionist_node env s).route_to_clinical = false) :
    (run_graph env s).turn_count = s.turn_count + 1 := by
  unfold run_graph
  dsimp only
  rw [h]
  simp only [Bool.false_eq_true, if_false]
  rw [end_node_turn, receptionist_node_turn]

theorem run_graph_turn_route_true (env : OrchEnv) (s : ConvState)
    (h : (receptionist_node env s).route_to_clinical = true) :
    (run_graph env s).turn_count = s.turn_count + 2 := by
  unfold run_graph
  dsimp only
  rw [h]
  simp only [if_true]
  rw [end_node_turn, clinical_node_turn, receptionist_node_turn]

theorem prep_state_identified (m : String) (s : ConvState) :
    (prep_state m s).patient_identified = s.patient_identified := rfl

theorem prep_state_turn (m : String) (s : ConvState) :
    (prep_state m s).turn_count = s.turn_count := rfl

theorem receptionist_node_ident_proj (env : OrchEnv) (s : ConvState)
    (h : s.patient_identified = false) :
    (receptionist_node env s).receptionist_response
        = some (process_patient_name env.recept s.user_message).response
    ∧ (receptionist_node env s).route_to_clinical = s.route_to_clinical
    ∧ (receptionist_node env s).clinical_response = s.clinical_response
    ∧ (receptionist_node env s).patient_identified
        = decide ((process_patient_name env.recept s.user_message).status = RStatus.success) := by
  unfold receptionist_node
  rw [h]
  dsimp only
  by_cases hs : (process_patient_name env.recept s.user_message).status = RStatus.success
  · simp [hs, h]
  · simp [hs, h]

theorem run_graph_eq_of_route_false (env : OrchEnv) (s : ConvState)
    (h : (receptionist_node env s).route_to_clinical = false) :
    run_graph env s = end_node (receptionist_node env s) := by
  unfold run_graph
  dsimp only
  rw [h]
  simp

theorem process_message_response (env : OrchEnv) (m : String) (s : ConvState) :
    (process_message env m s).response = pick_response (process_message env m s).state := by
  unfold process_message invoke_result
  cases env.invoke_fault <;> rfl

theorem process_message_state (env : OrchEnv) (m : String) (s : ConvState) :
    (process_message env m s).state =
      match env.invoke_fault with
      | some _ => { prep_state m s with receptionist_response := some apology_text }
      | none => run_graph env (prep_state m s) := by
  unfold process_message invoke_result
  cases env.invoke_fault <;> rfl

theorem retrieve_num_eq_length (env : RagEnv) (q : String) :
    (retrieve_context env q).num_results = (retrieve_context env q).documents.length := by
  unfold retrieve_context
  cases env.search q with
  | error e => rfl
  | ok hits => rfl

/-! ## Claim theorems -/

/-- C6: `build_context_with_citations` applied to the empty passage list
returns an empty context and an empty citation list; applied to any passage
list it preserves the input rank order, produces exactly one context block per
passage (block `j`, 0-based, prefixed with the `[Source j+1: Page locator]`
marker of passage `j`), and produces exactly `chunks.length` citation entries
numbered contiguously `1..N`; when the input carries the retriever's dense
1-based ranks, each entry's source number equals its passage's rank. -/
theorem citation_assembly_spec :
    build_context_with_citations [] = ("", "")
    ∧ ∀ chunks : List Chunk,
        (citationsOf chunks).length = chunks.length
        ∧ (blocksOf chunks).length = chunks.length
        ∧ (build_context_with_citations chunks).1
            = String.intercalate "\n\n---\n\n" (blocksOf chunks)
        ∧ ∀ j (hj : j < chunks.length),
            (citationsOf chunks)[j]? =
              some { source_num := j + 1,
                     page := (chunks.get ⟨j, hj⟩).getPage,
                     chunk_id := (chunks.get ⟨j, hj⟩).getChunkId }
            ∧ (blocksOf chunks)[j]? = some (contextBlock (j + 1) (chunks.get ⟨j, hj⟩))
            ∧ ((chunks.get ⟨j, hj⟩).rank = some (j + 1) →
                ∃ cit, (citationsOf chunks)[j]? = some cit
                  ∧ (chunks.get ⟨j, hj⟩).rank = some cit.source_num) := by
  refine ⟨rfl, fun chunks => ⟨?_, ?_, rfl, ?_⟩⟩
  · simp [citationsOf, enumFrom_length]
  · simp [blocksOf, enumFrom_length]
  · intro j hj
    have hget : (enumFrom 1 chunks)[j]? = some (1 + j, chunks.get ⟨j, hj⟩) := by
      simpa using enumFrom_getElem? 1 chunks j hj
    have hcit : (citationsOf chunks)[j]? =
        some { source_num := j + 1,
               page := (chunks.get ⟨j, hj⟩).getPage,
               chunk_id := (chunks.get ⟨j, hj⟩).getChunkId } := by
      simp [citationsOf, List.getElem?_map, hget, Nat.add_comm 1 j]
    refine ⟨hcit, ?_, ?_⟩
    · simp [blocksOf, List.getElem?_map, hget, Nat.add_comm 1 j]
    · intro hrank
      exact ⟨_, hcit, by simpa using hrank⟩

/-- Witness for C6 at a concrete two-passage list. -/
theorem citation_assembly_spec_witness :
    (citationsOf demoChunksC6)[1]? =
      some { source_num := 2, page := "34", chunk_id := "c2" }
    ∧ ∃ cit, (citationsOf demoChunksC6)[1]? = some cit
        ∧ (demoChunksC6.get ⟨1, by decide⟩).rank = some cit.source_num := by
  have h := (citation_assembly_spec.2 demoChunksC6).2.2.2 1 (by decide)
  exact ⟨h.1, h.2.2 (by decide)⟩

/-- C10: the record lookup is total — every internal fault (database
connect/query failure or JSON-column parse failure) is caught and reported as
`none`, exactly like a genuinely missing patient, so the caller cannot
distinguish a store fault from a miss and the lookup never raises past its
boundary. -/
theorem patient_lookup_total (env : DbEnv) (q : String) :
    ((∃ e, lookupBody env q = Except.error e) → get_patient_by_name env q = none)
    ∧ (env.rows.find? (fun r => lowerString r.patient_name == lowerString q) = none →
        get_patient_by_name env q = none)
    ∧ ∀ p, get_patient_by_name env q = some p →
        ∃ r, env.rows.find? (fun r => lowerString r.patient_name == lowerString q) = some r
          ∧ p.patient_name = r.patient_name := by
  refine ⟨?_, ?_, fun p hp => get_patient_by_name_some_find env q p hp⟩
  · rintro ⟨e, he⟩
    simp [get_patient_by_name, he]
  · intro hfind
    cases hc : env.connect with
    | error e => simp [get_patient_by_name, lookupBody, hc]
    | ok u => simp [get_patient_by_name, lookupBody, hc, hfind]

/-- Witness for C10: a concrete connection fault is reported as `none`. -/
theorem patient_lookup_total_witness :
    get_patient_by_name envC10 "Adam King" = none :=
  (patient_lookup_total envC10 "Adam King").1
    ⟨"unable to open database file", rfl⟩

/-- C2: `patient_identified` starts false and is monotone non-decreasing:
no `process_message` step (and hence no message sequence) ever resets it to
false; both the graph nodes and the invoke-fault fallback preserve a true
value. -/
theorem patient_identified_monotone :
    start_conversation.state.patient_identified = false
    ∧ (∀ (env : OrchEnv) (msg : String) (s : ConvState),
        s.patient_identified = true →
        (process_message env msg s).state.patient_identified = true)
    ∧ ∀ (env : OrchEnv) (msgs : List String) (s : ConvState),
        s.patient_identified = true →
        (run_messages env msgs s).patient_identified = true := by
  have hstep : ∀ (env : OrchEnv) (msg : String) (s : ConvState),
      s.patient_identified = true →
      (process_message env msg s).state.patient_identified = true := by
    intro env msg s h
    rw [process_message_state]
    cases hf : env.invoke_fault with
    | some e => simp only [hf]; exact h
    | none => simp only [hf]; exact run_graph_identified_true env _ h
  refine ⟨rfl, hstep, ?_⟩
  intro env msgs
  induction msgs with
  | nil => intro s h; simpa [run_messages] using h
  | cons m ms ih =>
    intro s h
    have hm := hstep env m s h
    simpa [run_messages, List.foldl] using ih _ hm

/-- Witness for C2: a concrete already-identified state stays identified
after a concrete processed message. -/
theorem patient_identified_monotone_witness :
    identifiedState.patient_identified = true
    ∧ (process_message demoOrchEnv "Yes I am taking them" identifiedState).state.patient_identified
        = true :=
  ⟨rfl, patient_identified_monotone.2.1 demoOrchEnv "Yes I am taking them" identifiedState rfl⟩

/-- C3 (amended): `turn_count` never decreases, and each agent node executed
during a message increments it exactly once — so a message handled by the
receptionist alone increases it by 1, a message routed onward to the
clinical agent increases it by 2, and a message whose graph invocation
raises (caught at the boundary) leaves it unchanged. -/
theorem turn_count_per_node :
    (∀ (env : OrchEnv) (s : ConvState),
        (receptionist_node env s).turn_count = s.turn_count + 1
        ∧ (clinical_node env s).turn_count = s.turn_count + 1)
    ∧ ∀ (env : OrchEnv) (msg : String) (s : ConvState),
        s.turn_count ≤ (process_message env msg s).state.turn_count
        ∧ (process_message env msg s).state.turn_count ≤ s.turn_count + 2
        ∧ (env.invoke_fault.isSome = true →
            (process_message env msg s).state.turn_count = s.turn_count)
        ∧ (env.invoke_fault = none →
            ((receptionist_node env (prep_state msg s)).route_to_clinical = false →
              (process_message env msg s).state.turn_count = s.turn_count + 1)
            ∧ ((receptionist_node env (prep_state msg s)).route_to_clinical = true →
              (process_message env msg s).state.turn_count = s.turn_count + 2)) := by
  refine ⟨fun env s => ⟨receptionist_node_turn env s, clinical_node_turn env s⟩, ?_⟩
  intro env msg s
  rw [process_message_state]
  cases hf : env.invoke_fault with
  | some e =>
    simp only [hf]
    exact ⟨Nat.le_refl _, Nat.le_add_right _ _, fun _ => rfl, fun h => by simp at h⟩
  | none =>
    simp only [hf]
    by_cases hr : (receptionist_node env (prep_state msg s)).route_to_clinical = true
    · have h2 : (run_graph env (prep_state msg s)).turn_count = s.turn_count + 2 := by
        rw [run_graph_turn_route_true env _ hr, prep_state_turn]
      refine ⟨?_, ?_, fun hcon => by simp [hf] at hcon, fun _ => ⟨fun hfalse => ?_, fun _ => h2⟩⟩
      · rw [h2]; exact Nat.le_add_right _ _
      · rw [h2]
      · rw [hr] at hfalse; exact absurd hfalse (by simp)
    · have hr' : (receptionist_node env (prep_state msg s)).route_to_clinical = false := by
        simpa using hr
      have h1 : (run_graph env (prep_state msg s)).turn_count = s.turn_count + 1 := by
        rw [run_graph_turn_route_false env _ hr', prep_state_turn]
      refine ⟨?_, ?_, fun hcon => by simp [hf] at hcon, fun _ => ⟨fun _ => h1, fun htrue => ?_⟩⟩
      · rw [h1]; exact Nat.le_add_right _ _
      · rw [h1]; exact Nat.le_succ_of_le (Nat.le_refl _)
      · rw [hr'] at htrue; exact absurd htrue (by simp)

/-- Witness for C3 at a concrete non-routed message: exactly one increment. -/
theorem turn_count_per_node_witness :
    (process_message demoOrchEnv "Hello there" identifiedState).state.turn_count
      = identifiedState.turn_count + 1 := by
  have h := (turn_count_per_node.2 demoOrchEnv "Hello there" identifiedState).2.2.2 rfl
  exact h.1 rfl

/-- Counterexample to C3 as stated: a message routed to the clinical agent
is counted twice — `turn_count` goes from 5 to 7 for one processed message,
not to 6. -/
theorem turn_count_double_increment :
    identifiedState.turn_count = 5
    ∧ (process_message envC3 "I have swelling in my legs" identifiedState).state.turn_count = 7
    ∧ (7 : Nat) ≠ 5 + 1 :=
  ⟨rfl, rfl, by decide⟩

/-- C1 (amended): the fixed greeting bundle is produced by
`start_conversation` before any message is processed (`turn_count = 0`,
patient unidentified); the first processed message is then routed by
`patient_identified`, not by the turn number — it always takes the
identification path, and its answer is the `process_patient_name` outcome
for that message, with `patient_identified` set exactly when that outcome is
a success. -/
theorem route_first_message_identification :
    start_conversation.response = greet_patient
    ∧ start_conversation.state.turn_count = 0
    ∧ start_conversation.state.patient_identified = false
    ∧ ∀ (env : OrchEnv) (msg : String),
        env.invoke_fault = none →
        (process_message env msg start_conversation.state).state.receptionist_response
          = some (process_patient_name env.recept msg).response
        ∧ (process_message env msg start_conversation.state).response
          = some (process_patient_name env.recept msg).response
        ∧ (process_message env msg start_conversation.state).state.patient_identified
          = decide ((process_patient_name env.recept msg).status = RStatus.success) := by
  refine ⟨rfl, rfl, rfl, ?_⟩
  intro env msg hf
  have hid : (prep_state msg start_conversation.state).patient_identified = false := rfl
  have hproj := receptionist_node_ident_proj env (prep_state msg start_conversation.state) hid
  have hroute : (receptionist_node env (prep_state msg start_conversation.state)).route_to_clinical
      = false := by
    rw [hproj.2.1]; rfl
  have hrg : run_graph env (prep_state msg start_conversation.state)
      = end_node (receptionist_node env (prep_state msg start_conversation.state)) :=
    run_graph_eq_of_route_false env _ hroute
  have hstate : (process_message env msg start_conversation.state).state
      = run_graph env (prep_state msg start_conversation.state) := by
    rw [process_message_state, hf]
  have huser : (prep_state msg start_conversation.state).user_message = msg := rfl
  refine ⟨?_, ?_, ?_⟩
  · rw [hstate, hrg]
    rw [huser] at hproj
    exact hproj.1
  · rw [process_message_response, hstate, hrg]
    have hcl : (end_node (receptionist_node env
        (prep_state msg start_conversation.state))).clinical_response = none := by
      rw [end_node_fields_clinical, hproj.2.2.1]; rfl
    rw [huser] at hproj
    unfold pick_response
    rw [hcl]
    exact hproj.1
  · rw [hstate, hrg]
    rw [huser] at hproj
    exact hproj.2.2.2

/-- Witness for C1 at a concrete environment and first message: the empty
record store yields a non-success outcome, so the patient stays
unidentified and the answer is the identification response. -/
theorem route_first_message_identification_witness :
    (process_message demoOrchEnv "Hello" start_conversation.state).response
      = some (process_patient_name demoOrchEnv.recept "Hello").response
    ∧ (process_message demoOrchEnv "Hello" start_conversation.state).state.patient_identified
      = false := by
  have h := route_first_message_identification.2.2.2 demoOrchEnv "Hello" rfl
  exact ⟨h.2.1, by rw [h.2.2]; rfl⟩

/-- Counterexample to C1 as stated: on the very first processed message a
matching patient name is answered with the identification-success bundle,
not the fixed greeting bundle, and it flips `patient_identified` (which the
greeting route never does). -/
theorem first_message_not_greeting :
    (process_message envC1 "Adam King" start_conversation.state).response
      = some "WELCOME_BACK"
    ∧ (process_message envC1 "Adam King" start_conversation.state).state.patient_identified
      = true
    ∧ ("WELCOME_BACK" : String) ≠ greet_patient :=
  ⟨rfl, rfl, by decide⟩

/-- C7: an exception raised during graph execution is caught at the
`process_message` boundary and converted into an answer with non-empty,
user-readable text (the apology is recorded in the state); the user turn is
not dropped from history; and, one level down, a failing generation call is
converted by `_generate_clinical_answer` into the templated error answer
rather than propagated. -/
theorem orchestrator_error_containment :
    (∀ (env : OrchEnv) (msg : String) (s : ConvState) (e : String),
      env.invoke_fault = some e →
      (process_message env msg s).state.receptionist_response = some apology_text
      ∧ (∃ t, (process_message env msg s).response = some t ∧ t ≠ "")
      ∧ (process_message env msg s).state.conversation_history
          = s.conversation_history ++ [{ speaker := "user", message := msg }])
    ∧ ∀ (cenv : ClinicalEnv) (pc : Option String) (q : String) (rag : RagResult)
        (web : Option WebResp) (e2 : String),
        cenv.llm (build_clinical_prompt pc rag web q) = .error e2 →
        generate_clinical_answer cenv pc q rag web = errorAnswerText := by
  constructor
  · intro env msg s e hf
    have hstate : (process_message env msg s).state
        = { prep_state msg s with receptionist_response := some apology_text } := by
      rw [process_message_state, hf]
    refine ⟨by rw [hstate], ?_, by rw [hstate]; rfl⟩
    rw [process_message_response, hstate]
    have hcl : ({ prep_state msg s with
        receptionist_response := some apology_text } : ConvState).clinical_response
        = s.clinical_response := rfl
    have hrr : ({ prep_state msg s with
        receptionist_response := some apology_text } : ConvState).receptionist_response
        = some apology_text := rfl
    unfold pick_response
    rw [hcl, hrr]
    cases hc2 : s.clinical_response with
    | none => exact ⟨apology_text, rfl, by decide⟩
    | some c =>
      by_cases hce : (c == "") = true
      · refine ⟨apology_text, ?_, by decide⟩
        simp [hce]
      · refine ⟨c, ?_, ?_⟩
        · simp [hce]
        · intro h
          apply hce
          rw [h]
          rfl
  · intro cenv pc q rag web e2 h
    unfold generate_clinical_answer
    rw [h]

/-- Witness for C7: a concrete caught fault yields the apology bundle. -/
theorem orchestrator_error_containment_witness :
    (process_message envFault "Hello" initial_state).state.receptionist_response
      = some apology_text
    ∧ ∃ t, (process_message envFault "Hello" initial_state).response = some t ∧ t ≠ "" := by
  have h := orchestrator_error_containment.1 envFault "Hello" initial_state
    "GraphRecursionError" rfl
  exact ⟨h.1, h.2.1⟩

/-- C8: the identification path trims the supplied name and looks it up
case-insensitively against the record store; on a match the record is
returned in a success bundle (and stored), while on no match the outcome is
a not-found bundle whose guidance lists at most 3 near-matches in the
store's listing order, and `patient_identified` remains false at the
orchestrator level. -/
theorem identification_lookup_spec :
    (∀ (env : ReceptionistEnv) (rawName : String),
      3 ≤ (trimString rawName).length →
      (∀ p, get_patient_by_name env.db (trimString rawName) = some p →
          process_patient_name env rawName =
            { status := RStatus.success,
              response := generate_patient_greeting env (trimString rawName) p,
              patient_data := some p }
          ∧ ∃ r, env.db.rows.find?
                (fun row => lowerString row.patient_name == lowerString (trimString rawName))
                = some r
              ∧ p.patient_name = r.patient_name)
      ∧ (get_patient_by_name env.db (trimString rawName) = none →
          (process_patient_name env rawName).status = RStatus.not_found
          ∧ (process_patient_name env rawName).patient_data = none
          ∧ ((similar_names (get_all_patient_names env.db) (trimString rawName)).take 3).length
              ≤ 3
          ∧ List.Sublist
              ((similar_names (get_all_patient_names env.db) (trimString rawName)).take 3)
              (get_all_patient_names env.db)
          ∧ (process_patient_name env rawName).response
            = "I couldn't find a discharge report for '" ++ trimString rawName
              ++ "' in our system."
              ++ suggestion_text (get_all_patient_names env.db) (trimString rawName)))
    ∧ ∀ (oenv : OrchEnv) (msg : String) (s : ConvState),
        s.patient_identified = false →
        (process_patient_name oenv.recept msg).status ≠ RStatus.success →
        (process_message oenv msg s).state.patient_identified = false := by
  constructor
  · intro env rawName hlen
    have hnot : ¬ ((trimString rawName).length < 3) := by omega
    constructor
    · intro p hp
      constructor
      · unfold process_patient_name
        dsimp only
        rw [if_neg hnot, hp]
      · exact get_patient_by_name_some_find env.db (trimString rawName) p hp
    · intro hp
      have h1 : process_patient_name env rawName =
          { status := RStatus.not_found,
            response := "I couldn't find a discharge report for '" ++ trimString rawName
              ++ "' in our system."
              ++ suggestion_text (get_all_patient_names env.db) (trimString rawName),
            patient_data := none } := by
        unfold process_patient_name
        dsimp only
        rw [if_neg hnot, hp]
      refine ⟨by rw [h1], by rw [h1], ?_, ?_, by rw [h1]⟩
      · exact List.length_take_le 3 _
      · exact List.Sublist.trans (List.take_sublist 3 _) (List.filter_sublist _)
  · intro oenv msg s hid hns
    rw [process_message_state]
    cases hf : oenv.invoke_fault with
    | some e =>
      simp only [hf]
      exact hid
    | none =>
      simp only [hf]
      have hid' : (prep_state msg s).patient_identified = false := hid
      have hnode : (receptionist_node oenv (prep_state msg s)).patient_identified = false :=
        receptionist_node_not_success oenv _ hid' hns
      have hproj := receptionist_node_ident_proj oenv (prep_state msg s) hid'
      have hroute : (receptionist_node oenv (prep_state msg s)).route_to_clinical = false := by
        rw [hproj.2.1]; rfl
      rw [run_graph_eq_of_route_false oenv _ hroute, end_node_identified]
      exact hnode

/-- Witness for C8: a concrete unknown name yields the not-found bundle with
at most 3 suggestions. -/
theorem identification_lookup_spec_witness :
    (process_patient_name envC8 "Bob").status = RStatus.not_found
    ∧ (process_patient_name envC8 "Bob").patient_data = none
    ∧ ((similar_names (get_all_patient_names envC8.db) (trimString "Bob")).take 3).length
        ≤ 3 := by
  have h := (identification_lookup_spec.1 envC8 "Bob" (by decide)).2 rfl
  exact ⟨h.1, h.2.1, h.2.2.1⟩

/-- C4 (amended): for every query containing a keyword of the code's fixed
recency lexicon `["latest", "recent", "new", "current", "2024", "2025"]`,
the clinical path always performs the web search when a client is
configured — whatever the similarity index returned — and reports its
results. -/
theorem recency_triggers_web_attempt :
    ∀ (env : ClinicalEnv) (pc : Option String) (q : String),
      uses_web_keywords q = true →
      env.web.hasClient = true →
      (answer_medical_query env pc q (uses_web_keywords q)).web_sources
        = (web_search env.web ("nephrology " ++ q)).results
      ∧ (answer_medical_query env pc q (uses_web_keywords q)).used_web
        = decide (0 < (web_search env.web ("nephrology " ++ q)).results.length) := by
  intro env pc q hq hc
  unfold answer_medical_query
  dsimp only
  rw [hq, hc]
  simp

/-- Witness for C4 at a concrete recency query with a configured client. -/
theorem recency_triggers_web_attempt_witness :
    (answer_medical_query envC4 none "latest kidney care"
        (uses_web_keywords "latest kidney care")).web_sources
      = (web_search envC4.web ("nephrology " ++ "latest kidney care")).results :=
  (recency_triggers_web_attempt envC4 none "latest kidney care" (by decide) rfl).1

/-- Counterexample to C4 as stated: `"guidelines"` is in the claim's lexicon
but not in the code's, so a guidelines query with a configured client and a
provider that would return results performs no web search at all
(`web_sources` is empty and `used_web` is false). -/
theorem guidelines_no_web_attempt :
    containsSub (lowerString "are there kidney guidelines") "guidelines" = true
    ∧ uses_web_keywords "are there kidney guidelines" = false
    ∧ envC4.web.hasClient = true
    ∧ (retrieve_context envC4.rag "are there kidney guidelines").documents ≠ []
    ∧ (answer_medical_query envC4 none "are there kidney guidelines"
        (uses_web_keywords "are there kidney guidelines")).web_sources = []
    ∧ (answer_medical_query envC4 none "are there kidney guidelines"
        (uses_web_keywords "are there kidney guidelines")).used_web = false
    ∧ (web_search envC4.web "nephrology are there kidney guidelines").results ≠ [] := by
  refine ⟨by decide, by decide, rfl, by decide, rfl, rfl, by decide⟩

/-- C5 (amended): for a query with zero retrieved passages and no recency
keyword, the answer degrades to the `no_context` method when no web client
is configured; when one is configured, the method is `error` when the
provider call fails, and otherwise `web_search` (at least one result) or
`no_web_results` (the provider returned nothing useful). -/
theorem degraded_method_classification :
    ∀ (env : ClinicalEnv) (pc : Option String) (q : String),
      (retrieve_context env.rag q).documents = [] →
      uses_web_keywords q = false →
      (env.web.hasClient = false →
        answer_method env pc q (uses_web_keywords q) = AnswerMethod.no_context)
      ∧ (env.web.hasClient = true →
          (∀ e, env.web.search ("nephrology " ++ q) = .error e →
            answer_method env pc q (uses_web_keywords q) = AnswerMethod.error)
          ∧ ∀ rs, env.web.search ("nephrology " ++ q) = .ok rs →
              answer_method env pc q (uses_web_keywords q) = AnswerMethod.web_search
              ∨ answer_method env pc q (uses_web_keywords q) = AnswerMethod.no_web_results) := by
  intro env pc q hdocs hq
  have hragsrc : (answer_medical_query env pc q false).rag_sources = [] := by
    unfold answer_medical_query
    dsimp only
    exact hdocs
  rw [hq]
  unfold answer_method
  dsimp only
  constructor
  · intro hc
    rw [hragsrc, hc]
    simp
  · intro hc
    constructor
    · intro e he
      have hw : web_search env.web ("nephrology " ++ q)
          = { results := [], query := "nephrology " ++ q, num_results := none,
              error := some e } := by
        unfold web_search
        rw [hc, he]
        rfl
      rw [hragsrc, hc, hw]
      simp
    · intro rs hrs
      have hw : web_search env.web ("nephrology " ++ q)
          = { results := rs, query := "nephrology " ++ q,
              num_results := some rs.length, error := none } := by
        unfold web_search
        rw [hc, hrs]
        rfl
      rw [hragsrc, hc, hw]
      by_cases hempty : rs.isEmpty = true
      · right
        simp [hempty]
      · left
        simp only [Bool.not_eq_true] at hempty
        simp [hempty]

/-- Witness for C5: an empty index and a non-recency query give `no_context`
without a client and `error` with a configured client whose provider call
fails. -/
theorem degraded_method_classification_witness :
    answer_method envC5 none "how should I sleep" (uses_web_keywords "how should I sleep")
      = AnswerMethod.no_context
    ∧ answer_method envC5err none "how should I sleep"
        (uses_web_keywords "how should I sleep")
      = AnswerMethod.error := by
  refine ⟨(degraded_method_classification envC5 none "how should I sleep" rfl rfl).1 rfl, ?_⟩
  exact ((degraded_method_classification envC5err none "how should I sleep" rfl rfl).2
    rfl).1 "tavily down" rfl

/-- Counterexample to C5 as stated: with zero retrieved passages, no recency
keyword and a configured web client whose provider call fails, the §4.3
method is `error`, not `web_search` or `no_web_results`. -/
theorem failing_provider_error_method :
    uses_web_keywords "how should I sleep" = false
    ∧ (retrieve_context envC5err.rag "how should I sleep").documents = []
    ∧ envC5err.web.hasClient = true
    ∧ answer_method envC5err none "how should I sleep"
        (uses_web_keywords "how should I sleep") = AnswerMethod.error
    ∧ AnswerMethod.error ≠ AnswerMethod.web_search
    ∧ AnswerMethod.error ≠ AnswerMethod.no_web_results := by
  refine ⟨by decide, rfl, rfl, rfl, by decide, by decide⟩

/-- C9 (amended): the text-generation call is retried up to twice (three
attempts total), stopping at the first success; similarity-index retrieval
and web search are never retried — a failure of the single call degrades
immediately to the corresponding empty fallback result. -/
theorem retry_policy :
    (∀ attempt : Nat → Except String String,
      attempts_used attempt ≤ 3
      ∧ (∀ r, attempt 1 = .ok r →
          chat_completion_with_retry attempt = .ok r ∧ attempts_used attempt = 1)
      ∧ (∀ e r, attempt 1 = .error e → attempt 2 = .ok r →
          chat_completion_with_retry attempt = .ok r ∧ attempts_used attempt = 2))
    ∧ (∀ (renv : RagEnv) (q e : String), renv.search q = .error e →
        retrieve_context renv q
          = { context := "", documents := [], query := q, num_results := 0,
              error := some e })
    ∧ (∀ (wenv : WebEnv) (q e : String), wenv.hasClient = true → wenv.search q = .error e →
        web_search wenv q
          = { results := [], query := q, num_results := none, error := some e }) := by
  refine ⟨fun attempt => ⟨?_, ?_, ?_⟩, ?_, ?_⟩
  · unfold attempts_used
    cases h1 : attempt 1 with
    | ok r => simp
    | error e =>
      cases h2 : attempt 2 with
      | ok r => simp
      | error e2 => simp
  · intro r h1
    unfold chat_completion_with_retry attempts_used
    rw [h1]
    exact ⟨rfl, rfl⟩
  · intro e r h1 h2
    unfold chat_completion_with_retry attempts_used
    rw [h1, h2]
    exact ⟨rfl, rfl⟩
  · intro renv q e h
    unfold retrieve_context
    rw [h]
  · intro wenv q e hc h
    unfold web_search
    rw [hc, h]
    rfl

/-- Witness for C9: immediate success uses one attempt; concrete retrieval
and web faults degrade to their empty fallback dicts. -/
theorem retry_policy_witness :
    chat_completion_with_retry attemptsC9w = .ok "fine"
    ∧ attempts_used attemptsC9w = 1
    ∧ retrieve_context ragEnvC9w "q"
        = { context := "", documents := [], query := "q", num_results := 0,
            error := some "chroma down" }
    ∧ web_search webEnvC9w "q"
        = { results := [], query := "q", num_results := none,
            error := some "tavily down" } := by
  have h1 := (retry_policy.1 attemptsC9w).2.1 "fine" rfl
  exact ⟨h1.1, h1.2, retry_policy.2.1 ragEnvC9w "q" "chroma down" rfl,
    retry_policy.2.2 webEnvC9w "q" "tavily down" rfl rfl⟩

/-- Counterexample to C9 as stated: a provider failing on attempts 1 and 2
is called a third time and the call succeeds there — more than the "at most
two attempts total" the claim allows. -/
theorem retry_third_attempt :
    chat_completion_with_retry attemptsC9 = .ok "generated text"
    ∧ attempts_used attemptsC9 = 3
    ∧ ¬(attempts_used attemptsC9 ≤ 2) :=
  ⟨rfl, rfl, by decide⟩

end PostDischarge
